import Mathlib

/-!
Verification of the registration-approval and authentication workflow of the
employee-attendance backend (`backend/routes/auth.js`).

The route handlers are shallowly embedded as pure functions over an explicit
database state `DB` holding the `User` and `RegistrationRequest` collections.
MongoDB `findOne` becomes `List.find?` (first match), document `save` on an
existing record becomes an id-keyed in-place update, and document creation
appends to the list.  External collaborators are modelled as follows:
`bcrypt` hashing as an injective tagging function, `jsonwebtoken` as a
record carrying the payload plus a signature value computed from the payload
and the secret, the nodemailer transporter as two boolean oracles (connection
verification outcome and send outcome), and `crypto.randomBytes` as a token
supplied as an input.  JS falsy checks on request-body strings (`!name`) are
modelled as equality with the empty string, and the case-insensitive
anchored regex `new RegExp("^" + email + "$", "i")` used by the login,
forgot-password lookups is modelled as equality after ASCII lowercasing.
-/

namespace Attendance

/-- ASCII lowercase of one character (the effect of the regex `i` flag on
the ASCII emails handled here). -/
def lowerChar (c : Char) : Char :=
  if c.toNat ≥ 65 ∧ c.toNat ≤ 90 then Char.ofNat (c.toNat + 32) else c

/-- ASCII lowercase of a string. -/
def lowerStr (s : String) : String := String.mk (s.data.map lowerChar)

/-- Case-insensitive anchored match, the model of
`{ email: new RegExp("^" + pat + "$", "i") }`. -/
def emailMatchCI (pat s : String) : Bool := lowerStr pat == lowerStr s

/-- Model of `String.prototype.trim`. -/
def trimStr (s : String) : String :=
  String.mk (((s.data.dropWhile (·.isWhitespace)).reverse.dropWhile (·.isWhitespace)).reverse)

/-- Model of `String.prototype.padStart(n, c)` for a one-character pad. -/
def padStart (s : String) (n : Nat) (c : Char) : String :=
  String.mk (List.replicate (n - s.length) c ++ s.data)

/-- The shared admin verification code (`ADMIN_VERIFICATION_CODE` in
`auth.js`). -/
def ADMIN_VERIFICATION_CODE : String := "COMPANY"

/-- Model of bcrypt hashing (`bcrypt.hash` after `bcrypt.genSalt(10)`): an
injective tagging function, sufficient for the functional claims proved
here (the salt does not influence any claim). -/
def hashPassword (p : String) : String := "$2a$10$" ++ p

/-- Model of `bcrypt.compare password storedHash`. -/
def comparePassword (p storedHash : String) : Bool := hashPassword p == storedHash

/-- Status of a registration request (`status` field, enum
`pending/approved/rejected`). -/
inductive ReqStatus where
  | pending
  | approved
  | rejected
deriving DecidableEq, Repr

/-- A document of the `User` collection, with the fields the auth routes
read or write. -/
structure User where
  id : Nat
  employeeId : String
  name : String
  email : String
  password : String
  department : String
  position : String
  phone : String
  address : String
  role : String
  isActive : Bool
  resetPasswordToken : Option String
  resetPasswordExpiry : Option Nat
deriving DecidableEq, Repr

/-- A document of the `RegistrationRequest` collection. -/
structure RegistrationRequest where
  id : Nat
  name : String
  email : String
  password : String
  department : String
  position : String
  phone : String
  address : String
  role : String
  adminCode : String
  status : ReqStatus
  reviewedAt : Option Nat
  reviewedBy : Option Nat
  rejectionReason : Option String
deriving DecidableEq, Repr

/-- The database state: the two collections the auth routes touch. -/
structure DB where
  users : List User
  requests : List RegistrationRequest
deriving DecidableEq, Repr

/-- `User.findById` (used by the auth middleware to resolve a token's id). -/
def findUserById (db : DB) (n : Nat) : Option User :=
  db.users.find? (fun u => u.id == n)

/-- The login / forgot-password user lookup:
`User.findOne({ email: regex-CI, isActive: true })`. -/
def findActiveByEmail (db : DB) (email : String) : Option User :=
  db.users.find? (fun u => emailMatchCI email u.email && u.isActive)

/-- `RegistrationRequest.findById`. -/
def findRequestById (db : DB) (n : Nat) : Option RegistrationRequest :=
  db.requests.find? (fun r => r.id == n)

/-- Saving a mutated user document: replace the record with that id. -/
def updateUser (db : DB) (u : User) : DB :=
  { db with users := db.users.map (fun v => if v.id == u.id then u else v) }

/-- Saving a mutated registration-request document. -/
def updateRequest (db : DB) (r : RegistrationRequest) : DB :=
  { db with requests := db.requests.map (fun q => if q.id == r.id then r else q) }

/-- `generateEmployeeId`: `User.countDocuments()` over the whole collection
(no filter), then `` `EMP${String(count + 1).padStart(4, "0")}` ``. -/
def mkEmployeeId (m : Nat) : String := "EMP" ++ padStart (Nat.repr m) 4 '0'

/-- `generateEmployeeId` applied to a database state. -/
def generateEmployeeId (db : DB) : String := mkEmployeeId (db.users.length + 1)

/-! ## POST /register -/

/-- The request body of `POST /register`; absent fields are the empty
string (JS falsy). -/
structure RegisterInput where
  name : String
  email : String
  password : String
  department : String
  position : String
  phone : String
  address : String
  role : String
  adminCode : String
deriving DecidableEq, Repr

/-- Outcome of `POST /register`, one constructor per return in the
handler. -/
inductive RegisterOutcome where
  | missingFields
  | shortPassword
  | invalidAdminCode
  | userExists
  | requestPending
  | requestApproved
  | created
deriving DecidableEq, Repr

/-- The `new RegistrationRequest({...})` document built by the register
handler. -/
def mkRegRequest (inp : RegisterInput) (freshId : Nat) : RegistrationRequest :=
  { id := freshId
    name := inp.name
    email := inp.email
    password := hashPassword inp.password
    department := inp.department
    position := inp.position
    phone := inp.phone
    address := inp.address
    role := if inp.role == "" then "employee" else inp.role
    adminCode := inp.adminCode
    status := .pending
    reviewedAt := none
    reviewedBy := none
    rejectionReason := none }

/-- `POST /register`.  Checks, in handler order: required fields, password
length, admin code, duplicate in the `User` collection (exact email, no
active filter), duplicate pending/approved request (exact email); then
creates the request.  The notification insert is an external sink and is
not modelled. -/
def register (db : DB) (inp : RegisterInput) (freshId : Nat) : RegisterOutcome × DB :=
  if inp.name == "" || inp.email == "" || inp.password == "" || inp.department == "" ||
      inp.position == "" || inp.phone == "" || inp.address == "" || inp.adminCode == "" then
    (.missingFields, db)
  else if inp.password.length < 6 then
    (.shortPassword, db)
  else if inp.adminCode != ADMIN_VERIFICATION_CODE then
    (.invalidAdminCode, db)
  else
    match db.users.find? (fun u => u.email == inp.email) with
    | some _ => (.userExists, db)
    | none =>
      match db.requests.find? (fun r =>
          r.email == inp.email && (r.status == .pending || r.status == .approved)) with
      | some r => if r.status == .pending then (.requestPending, db) else (.requestApproved, db)
      | none => (.created, { db with requests := db.requests ++ [mkRegRequest inp freshId] })

/-- Spec taxonomy: the register outcomes mapped to `ValidationError`. -/
def isValidationError (o : RegisterOutcome) : Prop :=
  o = .missingFields ∨ o = .shortPassword

/-- Spec taxonomy: the register outcomes mapped to `ForbiddenError`. -/
def isForbiddenError (o : RegisterOutcome) : Prop :=
  o = .invalidAdminCode

/-- Spec taxonomy: the register outcomes mapped to `ConflictError`. -/
def isConflictError (o : RegisterOutcome) : Prop :=
  o = .userExists ∨ o = .requestPending ∨ o = .requestApproved

/-! ## POST /approve-registration/:requestId and /reject-registration/:requestId -/

/-- Failure cases of the approve handler. -/
inductive ApproveError where
  | notFound
  | alreadyProcessed
  | emailExists
deriving DecidableEq, Repr

/-- A durable write performed by the approve handler, in program order. -/
inductive WriteOp where
  | saveUser (u : User)
  | saveRequest (r : RegistrationRequest)
deriving DecidableEq, Repr

/-- Apply one durable write to the database state. -/
def applyOp (db : DB) : WriteOp → DB
  | .saveUser u => { db with users := db.users ++ [u] }
  | .saveRequest r => updateRequest db r

/-- Apply a sequence of writes in order. -/
def applyOps (db : DB) (ops : List WriteOp) : DB := ops.foldl applyOp db

/-- The `new User({...})` document built on the approve path: active, with
the request's already-hashed password and the generated employee id. -/
def mkApprovedUser (r : RegistrationRequest) (employeeId : String) (freshUserId : Nat) : User :=
  { id := freshUserId
    employeeId := employeeId
    name := r.name
    email := r.email
    password := r.password
    department := r.department
    position := r.position
    phone := r.phone
    address := r.address
    role := r.role
    isActive := true
    resetPasswordToken := none
    resetPasswordExpiry := none }

/-- The mutation of the request document on the approve path. -/
def approvedRequest (r : RegistrationRequest) (adminId now : Nat) : RegistrationRequest :=
  { r with status := .approved, reviewedAt := some now, reviewedBy := some adminId }

/-- The approve handler up to its durable writes: request lookup, pending
guard, duplicate-email re-check (exact email, no active filter), then the
ordered write list `user.save(); registrationRequest.save()`. -/
def approveRun (db : DB) (requestId adminId now freshUserId : Nat) :
    Except ApproveError (List WriteOp) :=
  match findRequestById db requestId with
  | none => .error .notFound
  | some r =>
    if r.status != .pending then .error .alreadyProcessed
    else
      match db.users.find? (fun u => u.email == r.email) with
      | some _ => .error .emailExists
      | none =>
        .ok [ .saveUser (mkApprovedUser r (generateEmployeeId db) freshUserId),
              .saveRequest (approvedRequest r adminId now) ]

/-- Outcome of `POST /approve-registration/:requestId`. -/
inductive ApproveOutcome where
  | err (e : ApproveError)
  | ok
deriving DecidableEq, Repr

/-- `POST /approve-registration/:requestId`: run the handler and apply its
writes; failures leave the database untouched. -/
def approveRegistration (db : DB) (requestId adminId now freshUserId : Nat) :
    ApproveOutcome × DB :=
  match approveRun db requestId adminId now freshUserId with
  | .error e => (.err e, db)
  | .ok ops => (.ok, applyOps db ops)

/-- Outcome of `POST /reject-registration/:requestId`. -/
inductive RejectOutcome where
  | notFound
  | alreadyProcessed
  | ok
deriving DecidableEq, Repr

/-- `POST /reject-registration/:requestId`: lookup, pending guard, then the
single mutation setting status, reviewer, timestamp and reason
(`reason || "No reason provided"`). -/
def rejectRegistration (db : DB) (requestId adminId now : Nat) (reason : String) :
    RejectOutcome × DB :=
  match findRequestById db requestId with
  | none => (.notFound, db)
  | some r =>
    if r.status != .pending then (.alreadyProcessed, db)
    else
      (.ok, updateRequest db
        { r with status := .rejected, reviewedAt := some now, reviewedBy := some adminId,
                 rejectionReason := some (if reason == "" then "No reason provided" else reason) })

/-! ## POST /login -/

/-- Seconds in the `expiresIn: "7d"` validity window of the issued JWT. -/
def sevenDays : Nat := 7 * 24 * 60 * 60

/-- Model of the JWT signature: a value computed from the payload and the
signing secret (the concrete mixing function is irrelevant to the claims;
verification recomputes it). -/
def jwtSignature (payloadId iat validUntil : Nat) (secret : String) : Nat :=
  payloadId * 1000003 + iat * 1009 + validUntil * 101 +
    (secret.data.map Char.toNat).sum

/-- A signed session token: payload `{ id }`, issue and expiry times, and
the signature. -/
structure JwtToken where
  id : Nat
  iat : Nat
  validUntil : Nat
  sig : Nat
deriving DecidableEq, Repr

/-- `jwt.sign({ id: user._id }, secret, { expiresIn: "7d" })`. -/
def jwtSign (userId : Nat) (secret : String) (now : Nat) : JwtToken :=
  { id := userId
    iat := now
    validUntil := now + sevenDays
    sig := jwtSignature userId now (now + sevenDays) secret }

/-- `jwt.verify(token, secret)` at time `now`: checks the signature and
that the token has not expired, returning the embedded identity. -/
def jwtVerify (t : JwtToken) (secret : String) (now : Nat) : Option Nat :=
  if t.sig == jwtSignature t.id t.iat t.validUntil secret && now < t.validUntil then
    some t.id
  else none

/-- The user object of the login response: exactly the fields the handler
returns (no password, no reset fields, no active flag). -/
structure UserView where
  id : Nat
  employeeId : String
  name : String
  email : String
  role : String
  department : String
  position : String
  phone : String
  address : String
deriving DecidableEq, Repr

/-- The sanitized profile built in the login response. -/
def sanitizeUser (u : User) : UserView :=
  { id := u.id
    employeeId := u.employeeId
    name := u.name
    email := u.email
    role := u.role
    department := u.department
    position := u.position
    phone := u.phone
    address := u.address }

/-- Outcome of `POST /login`, one constructor per return in the handler. -/
inductive LoginResult where
  | validationError
  | pendingApproval
  | rejectedRegistration
  | notFoundGeneric
  | wrongPassword
  | success (token : JwtToken) (user : UserView)
deriving DecidableEq, Repr

/-- The HTTP status and the literal `error`/`message` string each login
outcome is sent with. -/
def loginHttp : LoginResult → Nat × String
  | .validationError => (400, "Email and password are required")
  | .pendingApproval =>
      (401, "Your registration is still pending admin approval. Please wait for approval before logging in.")
  | .rejectedRegistration =>
      (401, "Your registration request was rejected. Please contact the administrator.")
  | .notFoundGeneric => (401, "Invalid email or password, or account not found")
  | .wrongPassword => (401, "Invalid email or password")
  | .success _ _ => (200, "Login successful")

/-- `POST /login`: validation, case-insensitive active-user lookup, the
three-way not-found distinction (pending request / rejected request /
generic), bcrypt comparison, then token issuance and the sanitized
response. -/
def login (db : DB) (email password secret : String) (now : Nat) : LoginResult :=
  if email == "" || password == "" then .validationError
  else
    match findActiveByEmail db email with
    | none =>
      match db.requests.find? (fun r => emailMatchCI email r.email && r.status == .pending) with
      | some _ => .pendingApproval
      | none =>
        match db.requests.find? (fun r => emailMatchCI email r.email && r.status == .rejected) with
        | some _ => .rejectedRegistration
        | none => .notFoundGeneric
    | some user =>
      if !(comparePassword password user.password) then .wrongPassword
      else .success (jwtSign user.id secret now) (sanitizeUser user)

/-! ## POST /forgot-password -/

/-- The email-related environment variables. -/
structure EmailEnv where
  emailUser : String
  emailPass : String
deriving DecidableEq, Repr

/-- The `emailConfigured` check of the handler: both variables set (JS
truthy) and nonempty after trimming. -/
def emailConfigured (env : EmailEnv) : Bool :=
  env.emailUser != "" && env.emailPass != "" &&
    trimStr env.emailUser != "" && trimStr env.emailPass != ""

/-- Outcome of `POST /forgot-password`, one constructor per return in the
handler; `sendFailed` is the generic 500 produced by the outer catch when
`transporter.sendMail` rejects. -/
inductive ForgotOutcome where
  | emailRequired
  | noUser
  | notConfigured
  | verifyFailed
  | sendFailed
  | sent
deriving DecidableEq, Repr

/-- `POST /forgot-password`.  `verifyOk` and `sendOk` are the outcomes of
`transporter.verify()` and `transporter.sendMail(...)`; `tok` is the random
token produced by `crypto.randomBytes(32)`.  The handler stores the token
with a one-hour expiry, clears it again if `verify` rejects, and — per the
source — performs no rollback when `sendMail` rejects (the outer catch
only returns a 500). -/
def forgotPassword (db : DB) (email : String) (env : EmailEnv)
    (verifyOk sendOk : Bool) (tok : String) (now : Nat) : ForgotOutcome × DB :=
  if email == "" then (.emailRequired, db)
  else
    match findActiveByEmail db email with
    | none => (.noUser, db)
    | some user =>
      if !(emailConfigured env) then (.notConfigured, db)
      else
        let user1 := { user with resetPasswordToken := some tok,
                                 resetPasswordExpiry := some (now + 3600000) }
        let db1 := updateUser db user1
        if !verifyOk then
          (.verifyFailed, updateUser db1
            { user1 with resetPasswordToken := none, resetPasswordExpiry := none })
        else if !sendOk then (.sendFailed, db1)
        else (.sent, db1)

/-! ## POST /reset-password -/

/-- Outcome of `POST /reset-password`, one constructor per return in the
handler. -/
inductive ResetOutcome where
  | missingFields
  | shortPassword
  | invalidToken
  | ok
deriving DecidableEq, Repr

/-- The reset-confirm lookup predicate:
`{ resetPasswordToken: token, resetPasswordExpiry: { $gt: Date.now() }, isActive: true }`. -/
def holdsValidToken (u : User) (tok : String) (now : Nat) : Bool :=
  u.resetPasswordToken == some tok &&
    (match u.resetPasswordExpiry with
     | some e => now < e
     | none => false) &&
    u.isActive

/-- The mutation applied to the user on a successful reset-confirm:
replace the hash, clear token and expiry. -/
def resetUser (u : User) (newPassword : String) : User :=
  { u with password := hashPassword newPassword,
           resetPasswordToken := none, resetPasswordExpiry := none }

/-- `POST /reset-password`: validation, valid-token lookup, then replace
the hash and clear the token and expiry. -/
def resetPassword (db : DB) (tok newPassword : String) (now : Nat) : ResetOutcome × DB :=
  if tok == "" || newPassword == "" then (.missingFields, db)
  else if newPassword.length < 6 then (.shortPassword, db)
  else
    match db.users.find? (fun u => holdsValidToken u tok now) with
    | none => (.invalidToken, db)
    | some user => (.ok, updateUser db (resetUser user newPassword))

/-! ## Decimal-representation lemmas

`mkEmployeeId` is injective: the zero-padded decimal string determines the
number, because its digit value can be folded back out.  These lemmas prove
that for the fuel-based `Nat.toDigitsCore` underlying `Nat.repr`. -/

/-- Structural recursion computing the decimal digit characters of `n`. -/
def digitsAux (n : Nat) : List Char :=
  if h : n / 10 = 0 then [Nat.digitChar (n % 10)]
  else digitsAux (n / 10) ++ [Nat.digitChar (n % 10)]
  termination_by n
  decreasing_by
    exact Nat.div_lt_self (by omega) (by omega)

theorem digitsAux_eq (n : Nat) :
    digitsAux n = if n / 10 = 0 then [Nat.digitChar (n % 10)]
      else digitsAux (n / 10) ++ [Nat.digitChar (n % 10)] := by
  rw [digitsAux]
  split <;> rfl

theorem toDigitsCore_eq_digitsAux :
    ∀ (fuel n : Nat) (ds : List Char), n < fuel →
      Nat.toDigitsCore 10 fuel n ds = digitsAux n ++ ds := by
  intro fuel
  induction fuel with
  | zero => intro n ds h; omega
  | succ f ih =>
    intro n ds h
    unfold Nat.toDigitsCore
    by_cases h10 : n / 10 = 0
    · simp only [h10, if_true, digitsAux_eq n, h10]
      simp
    · simp only [h10, if_false]
      rw [ih (n / 10) _ (by
        have h1 : 0 < n := by omega
        have := Nat.div_lt_self h1 (by omega : 1 < 10)
        omega)]
      rw [digitsAux_eq n]
      simp [h10]

/-- Fold the decimal value of a digit-character list back out, with
accumulator. -/
def valFrom (a : Nat) (l : List Char) : Nat :=
  l.foldl (fun b c => 10 * b + (c.toNat - 48)) a

theorem valFrom_append (a : Nat) (l₁ l₂ : List Char) :
    valFrom a (l₁ ++ l₂) = valFrom (valFrom a l₁) l₂ :=
  List.foldl_append ..

theorem digitChar_toNat : ∀ d : Nat, d < 10 → (Nat.digitChar d).toNat = 48 + d := by
  decide

theorem valFrom_digitsAux (n : Nat) :
    ∀ a : Nat, valFrom a (digitsAux n) = a * 10 ^ (digitsAux n).length + n := by
  induction n using Nat.strong_induction_on with
  | _ n ih =>
    intro a
    rw [digitsAux_eq]
    by_cases h10 : n / 10 = 0
    · have hlt : n < 10 := by omega
      have hmod : n % 10 = n := Nat.mod_eq_of_lt hlt
      simp only [h10, if_true]
      show valFrom a [Nat.digitChar (n % 10)] = a * 10 ^ 1 + n
      show 10 * a + ((Nat.digitChar (n % 10)).toNat - 48) = a * 10 ^ 1 + n
      rw [digitChar_toNat (n % 10) (Nat.mod_lt n (by omega)), hmod]
      ring_nf
      omega
    · have hlt : n / 10 < n := Nat.div_lt_self (by omega) (by omega)
      simp only [h10, if_false]
      rw [valFrom_append, ih (n / 10) hlt a]
      show 10 * (a * 10 ^ (digitsAux (n / 10)).length + n / 10) +
          ((Nat.digitChar (n % 10)).toNat - 48) =
        a * 10 ^ (digitsAux (n / 10) ++ [Nat.digitChar (n % 10)]).length + n
      rw [digitChar_toNat (n % 10) (Nat.mod_lt n (by omega)), List.length_append]
      have hdm := Nat.div_add_mod n 10
      have hpow : 10 ^ ((digitsAux (n / 10)).length + [Nat.digitChar (n % 10)].length)
          = 10 ^ (digitsAux (n / 10)).length * 10 := by
        simp [pow_succ]
      rw [hpow]
      ring_nf
      omega

theorem valFrom_replicate_zero (k : Nat) :
    ∀ a : Nat, valFrom a (List.replicate k '0') = a * 10 ^ k := by
  induction k with
  | zero => intro a; simp [valFrom]
  | succ m ih =>
    intro a
    rw [List.replicate_succ]
    show valFrom (10 * a + ('0'.toNat - 48)) (List.replicate m '0') = a * 10 ^ (m + 1)
    rw [ih]
    have : '0'.toNat - 48 = 0 := by decide
    rw [this]
    ring

theorem valFrom_mkEmployeeId_data (m : Nat) :
    valFrom 0 (padStart (Nat.repr m) 4 '0').data = m := by
  show valFrom 0 (List.replicate (4 - (Nat.repr m).length) '0' ++ (Nat.repr m).data) = m
  have hrepr : (Nat.repr m).data = digitsAux m := by
    show (Nat.toDigits 10 m).asString.data = digitsAux m
    show Nat.toDigitsCore 10 (m + 1) m [] = digitsAux m
    rw [toDigitsCore_eq_digitsAux (m + 1) m [] (Nat.lt_succ_self m)]
    simp
  rw [hrepr, valFrom_append, valFrom_replicate_zero, Nat.zero_mul, valFrom_digitsAux]
  simp

theorem mkEmployeeId_injective {a b : Nat} (h : mkEmployeeId a = mkEmployeeId b) : a = b := by
  unfold mkEmployeeId at h
  have hdata := congrArg String.data h
  rw [String.data_append, String.data_append] at hdata
  have hpad : (padStart (Nat.repr a) 4 '0').data = (padStart (Nat.repr b) 4 '0').data :=
    List.append_cancel_left hdata
  have := valFrom_mkEmployeeId_data a
  rw [hpad, valFrom_mkEmployeeId_data b] at this
  omega

/-! ## Lookup and update lemmas -/

theorem find?_update_self {α : Type} (key : α → Nat) (x : α) :
    ∀ l : List α, (l.find? (fun y => key y == key x)).isSome →
      (l.map (fun y => if key y == key x then x else y)).find? (fun y => key y == key x)
        = some x := by
  intro l
  induction l with
  | nil => intro h; simp [List.find?] at h
  | cons y t ih =>
    intro h
    cases hb : (key y == key x) with
    | true =>
      have hq : (if (key y == key x) = true then x else y) = x := by simp [hb]
      simp only [List.map_cons, hq, List.find?_cons, beq_self_eq_true]
    | false =>
      simp only [List.find?_cons, hb] at h
      simp only [List.map_cons, hb, Bool.false_eq_true, if_false, List.find?_cons]
      exact ih (by simpa using h)

theorem find?_id_of_nodup :
    ∀ (l : List User) (u : User), u ∈ l → (l.map User.id).Nodup →
      l.find? (fun v => v.id == u.id) = some u := by
  intro l
  induction l with
  | nil => intro u hu; simp at hu
  | cons v t ih =>
    intro u hu hn
    rcases List.mem_cons.mp hu with hv | ht
    · subst hv
      exact List.find?_cons_of_pos _ (by simp)
    · rw [List.map_cons] at hn
      obtain ⟨h1, h2⟩ := List.nodup_cons.mp hn
      have hvne : (v.id == u.id) = false := by
        have hin : u.id ∈ t.map User.id := List.mem_map_of_mem User.id ht
        simp only [beq_eq_false_iff_ne, ne_eq]
        intro he
        exact h1 (he ▸ hin)
      rw [List.find?_cons]
      simp only [hvne]
      exact ih u ht h2

/-! ## Concrete fixtures -/

/-- A generic active user for the concrete scenarios. -/
def baseUser : User :=
  { id := 1
    employeeId := "EMP0001"
    name := "U"
    email := "a@x.com"
    password := hashPassword "pw123456"
    department := "D"
    position := "P"
    phone := "1"
    address := "A"
    role := "employee"
    isActive := true
    resetPasswordToken := none
    resetPasswordExpiry := none }

/-- A generic pending registration request for the concrete scenarios. -/
def baseReq : RegistrationRequest :=
  { id := 10
    name := "N"
    email := "new@x.com"
    password := hashPassword "pw123456"
    department := "D"
    position := "P"
    phone := "1"
    address := "A"
    role := "employee"
    adminCode := "COMPANY"
    status := .pending
    reviewedAt := none
    reviewedBy := none
    rejectionReason := none }

/-- Modelled from the spec: the count of users in the active state, the
quantity the spec says the employee identifier is derived from.  Stated
for comparison with the source's `generateEmployeeId`, which counts every
`User` document. -/
def specActiveUserCount (db : DB) : Nat :=
  (db.users.filter (fun u => u.isActive)).length

/-! ## C6: decisions are single-shot -/

/-- C6: for a request whose status is no longer pending, both the approve
and the reject handler return the already-processed conflict and leave the
database — in particular the request record — unchanged. -/
theorem request_decision_single_shot (db : DB) (r : RegistrationRequest)
    (rid adminId now fid : Nat) (reason : String)
    (hFind : findRequestById db rid = some r)
    (hStatus : r.status ≠ .pending) :
    approveRegistration db rid adminId now fid = (.err .alreadyProcessed, db) ∧
    rejectRegistration db rid adminId now reason = (.alreadyProcessed, db) := by
  have hb : (r.status != ReqStatus.pending) = true := by
    simpa [bne_iff_ne] using hStatus
  constructor
  · unfold approveRegistration approveRun
    rw [hFind]
    simp [hb]
  · unfold rejectRegistration
    rw [hFind]
    simp [hb]

/-- A rejected request fixture for the C6 witness. -/
def c6Req : RegistrationRequest := { baseReq with id := 3, status := .rejected }

/-- Database fixture for the C6 witness. -/
def c6Db : DB := { users := [], requests := [c6Req] }

/-- Witness for C6 at a concrete already-rejected request. -/
theorem request_decision_single_shot_witness :
    approveRegistration c6Db 3 9 100 7 = (.err .alreadyProcessed, c6Db) ∧
    rejectRegistration c6Db 3 9 100 "again" = (.alreadyProcessed, c6Db) :=
  request_decision_single_shot c6Db c6Req 3 9 100 7 "again" (by decide) (by decide)

/-! ## C1: what approving a pending request creates -/

/-- C1 (amended): approving a pending request whose email collides with no
stored user creates exactly one active `User` whose employee identifier is
`EMP` followed by the zero-padded successor of the count of all stored
user records (not of the active ones only), copies the request's
already-hashed password, and marks the request approved with reviewer and
timestamp; the identifier is fresh whenever every stored identifier was
assigned from an earlier count. -/
theorem approve_pending_creates_user (db : DB) (r : RegistrationRequest)
    (rid adminId now fid : Nat)
    (hFind : findRequestById db rid = some r)
    (hPending : r.status = .pending)
    (hNoUser : ∀ u ∈ db.users, u.email ≠ r.email) :
    (approveRegistration db rid adminId now fid).1 = .ok ∧
    (approveRegistration db rid adminId now fid).2.users
      = db.users ++ [mkApprovedUser r (generateEmployeeId db) fid] ∧
    (mkApprovedUser r (generateEmployeeId db) fid).isActive = true ∧
    (mkApprovedUser r (generateEmployeeId db) fid).employeeId
      = mkEmployeeId (db.users.length + 1) ∧
    (mkApprovedUser r (generateEmployeeId db) fid).password = r.password ∧
    findRequestById (approveRegistration db rid adminId now fid).2 rid
      = some (approvedRequest r adminId now) ∧
    ((∀ v ∈ db.users, ∃ k, k ≤ db.users.length ∧ v.employeeId = mkEmployeeId k) →
      (mkApprovedUser r (generateEmployeeId db) fid).employeeId
        ∉ db.users.map (fun v => v.employeeId)) := by
  have hb : (r.status != ReqStatus.pending) = false := by
    simp [hPending]
  have hNone : db.users.find? (fun u => u.email == r.email) = none :=
    List.find?_eq_none.mpr (fun u hu => by simp [hNoUser u hu])
  have hrid : r.id = rid := by
    have := List.find?_some hFind
    simpa using this
  have happ : approveRegistration db rid adminId now fid
      = (.ok, applyOps db [ .saveUser (mkApprovedUser r (generateEmployeeId db) fid),
                            .saveRequest (approvedRequest r adminId now) ]) := by
    unfold approveRegistration approveRun
    rw [hFind]
    simp [hb, hNone]
  refine ⟨by rw [happ], by rw [happ]; rfl, rfl, rfl, rfl, ?_, ?_⟩
  · rw [happ]
    show (db.requests.map (fun q =>
        if q.id == (approvedRequest r adminId now).id then approvedRequest r adminId now else q)).find?
          (fun q => q.id == rid) = some (approvedRequest r adminId now)
    have hache : (approvedRequest r adminId now).id = rid := hrid
    rw [show (fun q : RegistrationRequest => q.id == rid)
        = (fun q : RegistrationRequest => q.id == (approvedRequest r adminId now).id) by
      funext q; rw [hache]]
    apply find?_update_self
    rw [show (fun y : RegistrationRequest => y.id == (approvedRequest r adminId now).id)
        = (fun y : RegistrationRequest => y.id == rid) by
      funext q; rw [hache]]
    rw [show db.requests.find? (fun y => y.id == rid) = findRequestById db rid from rfl, hFind]
    rfl
  · intro hSeq hmem
    obtain ⟨v, hv, hveq⟩ := List.mem_map.mp hmem
    obtain ⟨k, hk, hvk⟩ := hSeq v hv
    have : k = db.users.length + 1 := mkEmployeeId_injective (hvk ▸ hveq)
    omega

/-- An inactive user fixture: present in the collection, excluded from the
active-user count. -/
def c1InactiveUser : User := { baseUser with email := "old@x.com", isActive := false }

/-- Database fixture for the C1 counterexample: one inactive user, one
pending request. -/
def c1Db : DB := { users := [c1InactiveUser], requests := [baseReq] }

/-- C1 counterexample: with one inactive user stored, the active-user
count is 0, so the claim predicts identifier `EMP0001`; the code derives
the identifier from the total document count and creates the new user as
`EMP0002`.  No active user with the claimed identifier exists afterwards. -/
theorem approve_employeeId_claim_cx :
    specActiveUserCount c1Db = 0 ∧
    (approveRegistration c1Db 10 99 1000 2).1 = .ok ∧
    (approveRegistration c1Db 10 99 1000 2).2.users.map (fun u => u.employeeId)
      = ["EMP0001", "EMP0002"] ∧
    mkEmployeeId (specActiveUserCount c1Db + 1) = "EMP0001" ∧
    ¬ ∃ u ∈ (approveRegistration c1Db 10 99 1000 2).2.users,
        u.employeeId = mkEmployeeId (specActiveUserCount c1Db + 1) ∧ u.isActive = true := by
  decide

/-- Database fixture for the C1 witness: one active user, one pending
request with a fresh email. -/
def w1Req : RegistrationRequest := { baseReq with id := 20, email := "w1@x.com" }

/-- Database for the C1 witness. -/
def w1Db : DB := { users := [baseUser], requests := [w1Req] }

/-- Witness for C1 (amended) at a concrete pending request. -/
theorem approve_pending_creates_user_witness :
    (approveRegistration w1Db 20 9 500 7).1 = .ok ∧
    (approveRegistration w1Db 20 9 500 7).2.users
      = w1Db.users ++ [mkApprovedUser w1Req (generateEmployeeId w1Db) 7] :=
  ⟨(approve_pending_creates_user w1Db w1Req 20 9 500 7 (by decide) (by decide) (by decide)).1,
   (approve_pending_creates_user w1Db w1Req 20 9 500 7 (by decide) (by decide) (by decide)).2.1⟩

/-! ## C5: write ordering on the approve path -/

/-- C5: a successful approve performs exactly two durable writes, the user
insert strictly before the request update; in every state before the last
write the request is still pending, and whenever a state shows the request
approved, a user with the request's email exists in it. -/
theorem approve_user_saved_before_request_marked (db : DB) (r : RegistrationRequest)
    (rid adminId now fid : Nat) (ops : List WriteOp)
    (hFind : findRequestById db rid = some r)
    (hRun : approveRun db rid adminId now fid = .ok ops) :
    ops = [ .saveUser (mkApprovedUser r (generateEmployeeId db) fid),
            .saveRequest (approvedRequest r adminId now) ] ∧
    (∀ i, i < ops.length →
      (findRequestById (applyOps db (ops.take i)) rid).map (fun q => q.status)
        = some .pending) ∧
    (∀ i, i ≤ ops.length →
      (findRequestById (applyOps db (ops.take i)) rid).map (fun q => q.status)
        = some .approved →
      ∃ u ∈ (applyOps db (ops.take i)).users, u.email = r.email) := by
  unfold approveRun at hRun
  rw [hFind] at hRun
  dsimp only at hRun
  by_cases hp : (r.status != ReqStatus.pending) = true
  · rw [if_pos hp] at hRun
    cases hRun
  · rw [if_neg hp] at hRun
    have hPending : r.status = .pending := by
      simpa [bne_iff_ne] using hp
    cases hU : db.users.find? (fun u => u.email == r.email) with
    | some u => rw [hU] at hRun; cases hRun
    | none =>
      rw [hU] at hRun
      have hops : ops = [ .saveUser (mkApprovedUser r (generateEmployeeId db) fid),
                          .saveRequest (approvedRequest r adminId now) ] := by
        cases hRun
        rfl
      subst hops
      have hrid : r.id = rid := by
        have := List.find?_some hFind
        simpa using this
      refine ⟨rfl, ?_, ?_⟩
      · intro i hi
        have hi2 : i < 2 := by simpa using hi
        interval_cases i
        · show (findRequestById db rid).map (fun q => q.status) = some .pending
          rw [hFind]
          simp [hPending]
        · show (findRequestById (applyOps db [ .saveUser
              (mkApprovedUser r (generateEmployeeId db) fid) ]) rid).map (fun q => q.status)
            = some .pending
          have : findRequestById (applyOps db [ .saveUser
              (mkApprovedUser r (generateEmployeeId db) fid) ]) rid
              = findRequestById db rid := rfl
          rw [this, hFind]
          simp [hPending]
      · intro i hi
        have hi2 : i ≤ 2 := by simpa using hi
        interval_cases i
        · intro habs
          rw [show findRequestById (applyOps db (List.take 0 _)) rid
              = findRequestById db rid from rfl, hFind] at habs
          simp [hPending] at habs
        · intro habs
          rw [show findRequestById (applyOps db (List.take 1
                [ WriteOp.saveUser (mkApprovedUser r (generateEmployeeId db) fid),
                  WriteOp.saveRequest (approvedRequest r adminId now) ])) rid
              = findRequestById db rid from rfl, hFind] at habs
          simp [hPending] at habs
        · intro _
          refine ⟨mkApprovedUser r (generateEmployeeId db) fid, ?_, rfl⟩
          show mkApprovedUser r (generateEmployeeId db) fid ∈ db.users ++ _
          simp

/-- A successful concrete approve run for the C5 witness. -/
def w5Ops : List WriteOp :=
  match approveRun w1Db 20 9 500 7 with
  | .ok ops => ops
  | .error _ => []

/-- Witness for C5: the concrete run performs the user insert first and
the request update second. -/
theorem approve_user_saved_before_request_marked_witness :
    w5Ops = [ .saveUser (mkApprovedUser w1Req (generateEmployeeId w1Db) 7),
              .saveRequest (approvedRequest w1Req 9 500) ] ∧
    (findRequestById (applyOps w1Db (w5Ops.take 1)) 20).map (fun q => q.status)
      = some .pending :=
  ⟨(approve_user_saved_before_request_marked w1Db w1Req 20 9 500 7 w5Ops
      (by decide) (by rfl)).1,
   (approve_user_saved_before_request_marked w1Db w1Req 20 9 500 7 w5Ops
      (by decide) (by rfl)).2.1 1 (by decide)⟩

/-! ## C4: the registration-submission contract -/

/-- Some required field of the submission is absent (JS falsy). -/
def someFieldMissing (inp : RegisterInput) : Prop :=
  inp.name = "" ∨ inp.email = "" ∨ inp.password = "" ∨ inp.department = "" ∨
    inp.position = "" ∨ inp.phone = "" ∨ inp.address = "" ∨ inp.adminCode = ""

/-- A user document (active or not) is stored under this exact email. -/
def hasUserWithEmail (db : DB) (e : String) : Prop :=
  ∃ u ∈ db.users, u.email = e

/-- A pending-or-approved registration request is stored under this exact
email. -/
def hasBlockingRequest (db : DB) (e : String) : Prop :=
  ∃ r ∈ db.requests, r.email = e ∧ (r.status = .pending ∨ r.status = .approved)

instance (inp : RegisterInput) : Decidable (someFieldMissing inp) := by
  unfold someFieldMissing
  infer_instance

instance (db : DB) (e : String) : Decidable (hasUserWithEmail db e) := by
  unfold hasUserWithEmail
  infer_instance

instance (db : DB) (e : String) : Decidable (hasBlockingRequest db e) := by
  unfold hasBlockingRequest
  infer_instance

instance (o : RegisterOutcome) : Decidable (isValidationError o) := by
  unfold isValidationError
  infer_instance

instance (o : RegisterOutcome) : Decidable (isForbiddenError o) := by
  unfold isForbiddenError
  infer_instance

instance (o : RegisterOutcome) : Decidable (isConflictError o) := by
  unfold isConflictError
  infer_instance

theorem missing_bool_iff (inp : RegisterInput) :
    (inp.name == "" || inp.email == "" || inp.password == "" || inp.department == "" ||
        inp.position == "" || inp.phone == "" || inp.address == "" || inp.adminCode == "") = true
      ↔ someFieldMissing inp := by
  simp [someFieldMissing, or_assoc]

/-- C4 (amended): the submission fails with `ValidationError` on a missing
field or a short password, then with `ForbiddenError` on a wrong admin
code, then with `ConflictError` when any stored user — active or not —
holds the email or a pending/approved request holds it, and otherwise
creates exactly one pending request. -/
theorem register_contract (db : DB) (inp : RegisterInput) (fid : Nat) :
    (someFieldMissing inp →
      isValidationError (register db inp fid).1 ∧ (register db inp fid).2 = db) ∧
    (¬ someFieldMissing inp → inp.password.length < 6 →
      isValidationError (register db inp fid).1 ∧ (register db inp fid).2 = db) ∧
    (¬ someFieldMissing inp → 6 ≤ inp.password.length →
      inp.adminCode ≠ ADMIN_VERIFICATION_CODE →
      isForbiddenError (register db inp fid).1 ∧ (register db inp fid).2 = db) ∧
    (¬ someFieldMissing inp → 6 ≤ inp.password.length →
      inp.adminCode = ADMIN_VERIFICATION_CODE → hasUserWithEmail db inp.email →
      isConflictError (register db inp fid).1 ∧ (register db inp fid).2 = db) ∧
    (¬ someFieldMissing inp → 6 ≤ inp.password.length →
      inp.adminCode = ADMIN_VERIFICATION_CODE → ¬ hasUserWithEmail db inp.email →
      hasBlockingRequest db inp.email →
      isConflictError (register db inp fid).1 ∧ (register db inp fid).2 = db) ∧
    (¬ someFieldMissing inp → 6 ≤ inp.password.length →
      inp.adminCode = ADMIN_VERIFICATION_CODE → ¬ hasUserWithEmail db inp.email →
      ¬ hasBlockingRequest db inp.email →
      register db inp fid
        = (.created, { db with requests := db.requests ++ [mkRegRequest inp fid] })) := by
  refine ⟨?_, ?_, ?_, ?_, ?_, ?_⟩
  · intro hm
    have hb : (inp.name == "" || inp.email == "" || inp.password == "" ||
        inp.department == "" || inp.position == "" || inp.phone == "" ||
        inp.address == "" || inp.adminCode == "") = true := (missing_bool_iff inp).mpr hm
    have hreg : register db inp fid = (.missingFields, db) := by
      unfold register
      rw [if_pos hb]
    rw [hreg]
    exact ⟨Or.inl rfl, rfl⟩
  · intro hm hlen
    have hb : ¬ ((inp.name == "" || inp.email == "" || inp.password == "" ||
        inp.department == "" || inp.position == "" || inp.phone == "" ||
        inp.address == "" || inp.adminCode == "") = true) := fun hc =>
      hm ((missing_bool_iff inp).mp hc)
    have hreg : register db inp fid = (.shortPassword, db) := by
      unfold register
      rw [if_neg hb, if_pos hlen]
    rw [hreg]
    exact ⟨Or.inr rfl, rfl⟩
  · intro hm hlen hcode
    have hb : ¬ ((inp.name == "" || inp.email == "" || inp.password == "" ||
        inp.department == "" || inp.position == "" || inp.phone == "" ||
        inp.address == "" || inp.adminCode == "") = true) := fun hc =>
      hm ((missing_bool_iff inp).mp hc)
    have hreg : register db inp fid = (.invalidAdminCode, db) := by
      unfold register
      rw [if_neg hb, if_neg (by omega), if_pos (by simpa [bne_iff_ne] using hcode)]
    rw [hreg]
    exact ⟨rfl, rfl⟩
  · intro hm hlen hcode hUser
    have hb : ¬ ((inp.name == "" || inp.email == "" || inp.password == "" ||
        inp.department == "" || inp.position == "" || inp.phone == "" ||
        inp.address == "" || inp.adminCode == "") = true) := fun hc =>
      hm ((missing_bool_iff inp).mp hc)
    obtain ⟨u, hu, hue⟩ := hUser
    have hsome : (db.users.find? (fun u => u.email == inp.email)).isSome :=
      List.find?_isSome.mpr ⟨u, hu, by simp [hue]⟩
    obtain ⟨x, hx⟩ := Option.isSome_iff_exists.mp hsome
    have hreg : register db inp fid = (.userExists, db) := by
      unfold register
      rw [if_neg hb, if_neg (by omega), if_neg (by simp [hcode]), hx]
    rw [hreg]
    exact ⟨Or.inl rfl, rfl⟩
  · intro hm hlen hcode hNoUser hBlock
    have hb : ¬ ((inp.name == "" || inp.email == "" || inp.password == "" ||
        inp.department == "" || inp.position == "" || inp.phone == "" ||
        inp.address == "" || inp.adminCode == "") = true) := fun hc =>
      hm ((missing_bool_iff inp).mp hc)
    have hUNone : db.users.find? (fun u => u.email == inp.email) = none :=
      List.find?_eq_none.mpr (fun u hu => by
        simp only [beq_iff_eq]
        exact fun he => hNoUser ⟨u, hu, he⟩)
    obtain ⟨r, hr, hre, hrs⟩ := hBlock
    have hsome : (db.requests.find? (fun r =>
        r.email == inp.email && (r.status == .pending || r.status == .approved))).isSome :=
      List.find?_isSome.mpr ⟨r, hr, by
        rcases hrs with hs | hs <;> simp [hre, hs]⟩
    obtain ⟨x, hx⟩ := Option.isSome_iff_exists.mp hsome
    have hxp := List.find?_some hx
    have hxs : x.email = inp.email ∧ (x.status = .pending ∨ x.status = .approved) := by
      simpa using hxp
    rcases hxs.2 with hs | hs
    · have hreg : register db inp fid = (.requestPending, db) := by
        unfold register
        rw [if_neg hb, if_neg (by omega), if_neg (by simp [hcode]), hUNone]
        dsimp only
        rw [hx]
        dsimp only
        rw [if_pos (by simp [hs])]
      rw [hreg]
      exact ⟨Or.inr (Or.inl rfl), rfl⟩
    · have hreg : register db inp fid = (.requestApproved, db) := by
        unfold register
        rw [if_neg hb, if_neg (by omega), if_neg (by simp [hcode]), hUNone]
        dsimp only
        rw [hx]
        dsimp only
        rw [if_neg (by simp [hs])]
      rw [hreg]
      exact ⟨Or.inr (Or.inr rfl), rfl⟩
  · intro hm hlen hcode hNoUser hNoBlock
    have hb : ¬ ((inp.name == "" || inp.email == "" || inp.password == "" ||
        inp.department == "" || inp.position == "" || inp.phone == "" ||
        inp.address == "" || inp.adminCode == "") = true) := fun hc =>
      hm ((missing_bool_iff inp).mp hc)
    have hUNone : db.users.find? (fun u => u.email == inp.email) = none :=
      List.find?_eq_none.mpr (fun u hu => by
        simp only [beq_iff_eq]
        exact fun he => hNoUser ⟨u, hu, he⟩)
    have hRNone : db.requests.find? (fun r =>
        r.email == inp.email && (r.status == .pending || r.status == .approved)) = none :=
      List.find?_eq_none.mpr (fun r hr => by
        intro hc
        have hc' : r.email = inp.email ∧ (r.status = .pending ∨ r.status = .approved) := by
          simpa using hc
        exact hNoBlock ⟨r, hr, hc'.1, hc'.2⟩)
    unfold register
    rw [if_neg hb, if_neg (by omega), if_neg (by simp [hcode]), hUNone]
    dsimp only
    rw [hRNone]

/-- Submission fixture reusing the inactive user's email. -/
def c4Inp : RegisterInput :=
  { name := "N", email := "old@x.com", password := "pw123456", department := "D",
    position := "P", phone := "1", address := "A", role := "", adminCode := "COMPANY" }

/-- C4 counterexample: a well-formed submission for an email held only by
an inactive user and by no registration request.  The claim's failure
conditions are all false (no active user, no pending/approved request), so
the claim predicts a created pending request; the code returns the
duplicate-user conflict because its lookup does not filter on the active
flag. -/
theorem register_inactive_email_cx :
    (∀ u ∈ c1Db.users, ¬ (u.isActive = true ∧ u.email = c4Inp.email)) ∧
    (∀ r ∈ c1Db.requests, ¬ r.email = c4Inp.email) ∧
    c4Inp.adminCode = ADMIN_VERIFICATION_CODE ∧
    6 ≤ c4Inp.password.length ∧
    ¬ someFieldMissing c4Inp ∧
    register c1Db c4Inp 77 = (.userExists, c1Db) ∧
    (register c1Db c4Inp 77).1 ≠ .created := by
  decide

/-- The empty database. -/
def dbEmpty : DB := { users := [], requests := [] }

/-- Submission fixture with a fresh email for the C4 witness. -/
def w4Inp : RegisterInput := { c4Inp with email := "fresh@x.com" }

/-- Witness for C4 (amended): a clean submission on the empty database
creates exactly one pending request. -/
theorem register_contract_witness :
    register dbEmpty w4Inp 3
      = (.created, { dbEmpty with requests := dbEmpty.requests ++ [mkRegRequest w4Inp 3] }) :=
  (register_contract dbEmpty w4Inp 3).2.2.2.2.2 (by decide) (by decide) (by decide)
    (by decide) (by decide)

/-! ## C10: the stored request keeps the plaintext admin code -/

/-- C10: every request created by a successful submission stores the
supplied plaintext admin-verification code verbatim (which a successful
submission forces to equal the configured shared code), alongside the
hashed password, in the pending state. -/
theorem register_persists_admin_code (db : DB) (inp : RegisterInput) (fid : Nat) (db' : DB)
    (h : register db inp fid = (.created, db')) :
    db'.requests = db.requests ++ [mkRegRequest inp fid] ∧
    (mkRegRequest inp fid).adminCode = inp.adminCode ∧
    inp.adminCode = ADMIN_VERIFICATION_CODE ∧
    (mkRegRequest inp fid).password = hashPassword inp.password ∧
    (mkRegRequest inp fid).status = .pending := by
  by_cases h1 : (inp.name == "" || inp.email == "" || inp.password == "" ||
      inp.department == "" || inp.position == "" || inp.phone == "" ||
      inp.address == "" || inp.adminCode == "") = true
  · unfold register at h
    rw [if_pos h1] at h
    simp at h
  · by_cases h2 : inp.password.length < 6
    · unfold register at h
      rw [if_neg h1, if_pos h2] at h
      simp at h
    · by_cases h3 : (inp.adminCode != ADMIN_VERIFICATION_CODE) = true
      · unfold register at h
        rw [if_neg h1, if_neg h2, if_pos h3] at h
        simp at h
      · have hcode : inp.adminCode = ADMIN_VERIFICATION_CODE := by
          have hne : ¬ inp.adminCode ≠ ADMIN_VERIFICATION_CODE := fun hne =>
            h3 (bne_iff_ne.mpr hne)
          exact not_not.mp hne
        cases hU : db.users.find? (fun u => u.email == inp.email) with
        | some x =>
          unfold register at h
          rw [if_neg h1, if_neg h2, if_neg h3, hU] at h
          simp at h
        | none =>
          cases hR : db.requests.find? (fun r =>
              r.email == inp.email && (r.status == .pending || r.status == .approved)) with
          | some x =>
            unfold register at h
            rw [if_neg h1, if_neg h2, if_neg h3, hU] at h
            dsimp only at h
            rw [hR] at h
            dsimp only at h
            by_cases hS : (x.status == ReqStatus.pending) = true
            · rw [if_pos hS] at h
              simp at h
            · rw [if_neg hS] at h
              simp at h
          | none =>
            unfold register at h
            rw [if_neg h1, if_neg h2, if_neg h3, hU] at h
            dsimp only at h
            rw [hR] at h
            dsimp only at h
            simp only [Prod.mk.injEq] at h
            refine ⟨?_, rfl, hcode, rfl, rfl⟩
            rw [← h.2]

/-- Witness for C10 at the concrete successful submission. -/
theorem register_persists_admin_code_witness :
    (register dbEmpty w4Inp 3).2.requests = dbEmpty.requests ++ [mkRegRequest w4Inp 3] ∧
    (mkRegRequest w4Inp 3).adminCode = w4Inp.adminCode :=
  ⟨(register_persists_admin_code dbEmpty w4Inp 3 (register dbEmpty w4Inp 3).2 (by decide)).1,
   (register_persists_admin_code dbEmpty w4Inp 3 (register dbEmpty w4Inp 3).2 (by decide)).2.1⟩

/-! ## C9: exact-match duplicate checks vs case-insensitive lookups -/

/-- A database holding one active user under a lower-case email. -/
def oneUserDb : DB := { users := [baseUser], requests := [] }

/-- Submission fixture differing from the stored email only in case. -/
def c9Inp : RegisterInput := { c4Inp with email := "A@x.com" }

/-- Environment fixture with the email service configured. -/
def mailEnv : EmailEnv := { emailUser := "svc@co.com", emailPass := "apppass" }

/-- C9: with an active user stored under `a@x.com`, a well-formed
submission for `A@x.com` — equal up to letter case only — passes both
duplicate checks and creates a pending request instead of conflicting,
while the login and forgot-password lookups match that same email
case-insensitively to the stored user. -/
theorem register_duplicate_checks_case_sensitive :
    c9Inp.email ≠ baseUser.email ∧
    lowerStr c9Inp.email = lowerStr baseUser.email ∧
    (register oneUserDb c9Inp 42).1 = .created ∧
    ¬ isConflictError (register oneUserDb c9Inp 42).1 ∧
    findActiveByEmail oneUserDb "A@x.com" = some baseUser ∧
    login oneUserDb "A@x.com" "pw123456" "sec" 0
      = .success (jwtSign baseUser.id "sec" 0) (sanitizeUser baseUser) ∧
    (forgotPassword oneUserDb "A@x.com" mailEnv true true "tok" 0).1 = .sent := by
  decide

/-! ## C2: password mismatch vs unknown email -/

/-- C2 counterexample: with one active user stored, a wrong-password run
and an unknown-email run both fail 401 but with different literal error
strings, so the two runs are distinguishable. -/
theorem login_mismatch_vs_unknown_cx :
    loginHttp (login oneUserDb "a@x.com" "wrongpw12" "sec" 0)
      = (401, "Invalid email or password") ∧
    loginHttp (login oneUserDb "ghost@x.com" "wrongpw12" "sec" 0)
      = (401, "Invalid email or password, or account not found") ∧
    loginHttp (login oneUserDb "a@x.com" "wrongpw12" "sec" 0)
      ≠ loginHttp (login oneUserDb "ghost@x.com" "wrongpw12" "sec" 0) := by
  decide

/-- C2 (amended): a password mismatch on an existing active user and a
lookup miss with no pending or rejected request both yield a generic
401 invalid-credentials failure, but with distinct message strings, so
the caller can tell the two runs apart. -/
theorem login_mismatch_and_unknown_both_401 (db : DB)
    (email1 pw1 email2 pw2 secret : String) (now : Nat) (u : User)
    (h1e : email1 ≠ "") (h1p : pw1 ≠ "")
    (hFind1 : findActiveByEmail db email1 = some u)
    (hMismatch : comparePassword pw1 u.password = false)
    (h2e : email2 ≠ "") (h2p : pw2 ≠ "")
    (hFind2 : findActiveByEmail db email2 = none)
    (hNoPending : db.requests.find?
      (fun r => emailMatchCI email2 r.email && r.status == .pending) = none)
    (hNoRejected : db.requests.find?
      (fun r => emailMatchCI email2 r.email && r.status == .rejected) = none) :
    login db email1 pw1 secret now = .wrongPassword ∧
    login db email2 pw2 secret now = .notFoundGeneric ∧
    (loginHttp (login db email1 pw1 secret now)).1 = 401 ∧
    (loginHttp (login db email2 pw2 secret now)).1 = 401 ∧
    (loginHttp (login db email1 pw1 secret now)).2
      ≠ (loginHttp (login db email2 pw2 secret now)).2 := by
  have hl1 : login db email1 pw1 secret now = .wrongPassword := by
    unfold login
    rw [if_neg (by simp [h1e, h1p]), hFind1]
    dsimp only
    rw [if_pos (by simp [hMismatch])]
  have hl2 : login db email2 pw2 secret now = .notFoundGeneric := by
    unfold login
    rw [if_neg (by simp [h2e, h2p]), hFind2]
    dsimp only
    rw [hNoPending]
    dsimp only
    rw [hNoRejected]
  refine ⟨hl1, hl2, by rw [hl1]; rfl, by rw [hl2]; rfl, by rw [hl1, hl2]; decide⟩

/-- Witness for C2 (amended) at the concrete one-user database. -/
theorem login_mismatch_and_unknown_both_401_witness :
    login oneUserDb "a@x.com" "wrongpw12" "sec" 0 = .wrongPassword ∧
    login oneUserDb "ghost@x.com" "wrongpw12" "sec" 0 = .notFoundGeneric :=
  ⟨(login_mismatch_and_unknown_both_401 oneUserDb "a@x.com" "wrongpw12" "ghost@x.com"
      "wrongpw12" "sec" 0 baseUser (by decide) (by decide) (by decide) (by decide)
      (by decide) (by decide) (by decide) (by decide) (by decide)).1,
   (login_mismatch_and_unknown_both_401 oneUserDb "a@x.com" "wrongpw12" "ghost@x.com"
      "wrongpw12" "sec" 0 baseUser (by decide) (by decide) (by decide) (by decide)
      (by decide) (by decide) (by decide) (by decide) (by decide)).2.1⟩

/-! ## C8: successful login issues a verifiable 7-day token -/

/-- C8: a correct login returns a token embedding the user's id that
verifies back to that id at any time inside the 7-day window, the id
resolves to the same stored user, and the returned profile is independent
of the stored password hash. -/
theorem login_success_roundtrip (db : DB) (u : User) (email pw secret : String) (now : Nat)
    (he : email ≠ "") (hp : pw ≠ "")
    (hFind : findActiveByEmail db email = some u)
    (hPw : comparePassword pw u.password = true)
    (hNodup : (db.users.map User.id).Nodup) :
    login db email pw secret now = .success (jwtSign u.id secret now) (sanitizeUser u) ∧
    (jwtSign u.id secret now).id = u.id ∧
    (jwtSign u.id secret now).validUntil = now + sevenDays ∧
    (∀ t, t < now + sevenDays → jwtVerify (jwtSign u.id secret now) secret t = some u.id) ∧
    findUserById db u.id = some u ∧
    (∀ p2, sanitizeUser { u with password := p2 } = sanitizeUser u) := by
  refine ⟨?_, rfl, rfl, ?_, ?_, fun p2 => rfl⟩
  · unfold login
    rw [if_neg (by simp [he, hp]), hFind]
    dsimp only
    rw [if_neg (by simp [hPw])]
  · intro t ht
    unfold jwtVerify jwtSign
    dsimp only
    rw [if_pos (by simp [ht])]
  · exact find?_id_of_nodup db.users u (List.mem_of_find?_eq_some hFind) hNodup

/-- Witness for C8 at the concrete one-user database. -/
theorem login_success_roundtrip_witness :
    login oneUserDb "a@x.com" "pw123456" "sec" 100
      = .success (jwtSign baseUser.id "sec" 100) (sanitizeUser baseUser) ∧
    jwtVerify (jwtSign baseUser.id "sec" 100) "sec" 200 = some baseUser.id :=
  ⟨(login_success_roundtrip oneUserDb baseUser "a@x.com" "pw123456" "sec" 100
      (by decide) (by decide) (by decide) (by decide) (by decide)).1,
   (login_success_roundtrip oneUserDb baseUser "a@x.com" "pw123456" "sec" 100
      (by decide) (by decide) (by decide) (by decide) (by decide)).2.2.2.1 200 (by decide)⟩

/-! ## C3: reset-token rollback on delivery failure -/

/-- C3: the code rolls the stored reset token back when the transporter
connection check fails, but when the send itself fails the outer catch
returns the error with the token still stored: after a failed send the
user record keeps the undeliverable token and its expiry. -/
theorem forgot_sendmail_failure_keeps_token :
    (forgotPassword oneUserDb "a@x.com" mailEnv true false "tok123" 0).1 = .sendFailed ∧
    (∃ u ∈ (forgotPassword oneUserDb "a@x.com" mailEnv true false "tok123" 0).2.users,
        u.resetPasswordToken = some "tok123" ∧ u.resetPasswordExpiry = some 3600000) ∧
    (forgotPassword oneUserDb "a@x.com" mailEnv false false "tok123" 0).1 = .verifyFailed ∧
    (∀ u ∈ (forgotPassword oneUserDb "a@x.com" mailEnv false false "tok123" 0).2.users,
        u.resetPasswordToken = none ∧ u.resetPasswordExpiry = none) := by
  decide

/-! ## C7: reset-confirm is single-use -/

/-- The propositional form of the reset-confirm lookup: the active user
holds exactly this token with an expiry strictly in the future. -/
def ValidHolder (u : User) (tok : String) (now : Nat) : Prop :=
  u.resetPasswordToken = some tok ∧
    (∃ e, u.resetPasswordExpiry = some e ∧ now < e) ∧
    u.isActive = true

theorem holdsValidToken_iff (u : User) (tok : String) (now : Nat) :
    holdsValidToken u tok now = true ↔ ValidHolder u tok now := by
  unfold holdsValidToken ValidHolder
  cases he : u.resetPasswordExpiry with
  | none => simp [he]
  | some e => simp [he, and_assoc]

instance (u : User) (tok : String) (now : Nat) : Decidable (ValidHolder u tok now) :=
  decidable_of_iff (holdsValidToken u tok now = true) (holdsValidToken_iff u tok now)

/-- C7: for well-formed input (nonempty token, password of length at least
six), reset-confirm fails with the invalid-token error exactly when no
active user holds the supplied token unexpired; when the first such holder
is the only one, the reset succeeds, stores the new hash, clears token and
expiry, and running the same reset again on the resulting state fails with
the invalid-token error. -/
theorem reset_password_single_use (db : DB) (tok newPw : String) (now : Nat)
    (hTok : tok ≠ "") (hLen : 6 ≤ newPw.length) :
    (resetPassword db tok newPw now = (.invalidToken, db) ↔
      ∀ u ∈ db.users, ¬ ValidHolder u tok now) ∧
    (∀ u, db.users.find? (fun v => holdsValidToken v tok now) = some u →
      (∀ v ∈ db.users, ValidHolder v tok now → v = u) →
      (resetPassword db tok newPw now).1 = .ok ∧
      (∃ w ∈ (resetPassword db tok newPw now).2.users,
        w.id = u.id ∧ w.password = hashPassword newPw ∧
        w.resetPasswordToken = none ∧ w.resetPasswordExpiry = none) ∧
      resetPassword (resetPassword db tok newPw now).2 tok newPw now
        = (.invalidToken, (resetPassword db tok newPw now).2)) := by
  have hpwne : newPw ≠ "" := by
    intro hq
    subst hq
    have : ("" : String).length = 0 := rfl
    omega
  have hg1 : ¬ ((tok == "" || newPw == "") = true) := by
    simp [hTok, hpwne]
  have hg2 : ¬ (newPw.length < 6) := by omega
  constructor
  · constructor
    · intro hres u hu hvh
      have hsome : (db.users.find? (fun v => holdsValidToken v tok now)).isSome :=
        List.find?_isSome.mpr ⟨u, hu, (holdsValidToken_iff u tok now).mpr hvh⟩
      obtain ⟨x, hx⟩ := Option.isSome_iff_exists.mp hsome
      unfold resetPassword at hres
      rw [if_neg hg1, if_neg hg2, hx] at hres
      dsimp only at hres
      simp at hres
    · intro hnone
      have hfnone : db.users.find? (fun v => holdsValidToken v tok now) = none :=
        List.find?_eq_none.mpr (fun u hu hc =>
          hnone u hu ((holdsValidToken_iff u tok now).mp hc))
      unfold resetPassword
      rw [if_neg hg1, if_neg hg2, hfnone]
  · intro u hfind huniq
    have hmem := List.mem_of_find?_eq_some hfind
    have hres : resetPassword db tok newPw now
        = (.ok, updateUser db (resetUser u newPw)) := by
      unfold resetPassword
      rw [if_neg hg1, if_neg hg2, hfind]
    have hidr : (resetUser u newPw).id = u.id := rfl
    have hnone2 : (updateUser db (resetUser u newPw)).users.find?
        (fun v => holdsValidToken v tok now) = none := by
      apply List.find?_eq_none.mpr
      intro w hw hc
      obtain ⟨v, hv, hfv⟩ := List.mem_map.mp hw
      by_cases hid : (v.id == (resetUser u newPw).id) = true
      · rw [if_pos hid] at hfv
        subst hfv
        simp [holdsValidToken, resetUser] at hc
      · rw [if_neg hid] at hfv
        subst hfv
        have hvh := (holdsValidToken_iff v tok now).mp hc
        have : v = u := huniq v hv hvh
        subst this
        rw [hidr] at hid
        simp at hid
    refine ⟨by rw [hres], ?_, ?_⟩
    · refine ⟨resetUser u newPw, ?_, rfl, rfl, rfl, rfl⟩
      rw [hres]
      show _ ∈ db.users.map _
      have := List.mem_map_of_mem
        (fun v => if v.id == (resetUser u newPw).id then resetUser u newPw else v) hmem
      simpa [hidr] using this
    · rw [hres]
      unfold resetPassword
      rw [if_neg hg1, if_neg hg2, hnone2]

/-- A user holding a valid reset token, for the C7 witness. -/
def c7User : User :=
  { baseUser with resetPasswordToken := some "tok123", resetPasswordExpiry := some 99999 }

/-- Database for the C7 witness. -/
def c7Db : DB := { users := [c7User], requests := [] }

/-- Witness for C7: the concrete valid token succeeds once and the same
token fails on the resulting state. -/
theorem reset_password_single_use_witness :
    (resetPassword c7Db "tok123" "newpw123" 5).1 = .ok ∧
    resetPassword (resetPassword c7Db "tok123" "newpw123" 5).2 "tok123" "newpw123" 5
      = (.invalidToken, (resetPassword c7Db "tok123" "newpw123" 5).2) :=
  ⟨((reset_password_single_use c7Db "tok123" "newpw123" 5 (by decide) (by decide)).2
      c7User (by decide) (by decide)).1,
   ((reset_password_single_use c7Db "tok123" "newpw123" 5 (by decide) (by decide)).2
      c7User (by decide) (by decide)).2.2⟩

end Attendance
